import Mathlib

/-!
Verification development for the weather-prediction dashboard (src/app.py).

The source is a Streamlit dashboard built from five parameterized warehouse
queries, a TTL result cache, a normalization layer (latest-model-run
deduplication, timezone canonicalization, column-alias resolution) and a
derived-metrics layer (aggregates, MAE/RMSE, rain-probability banding).
Each definition below is a shallow embedding of the corresponding construct
in src/app.py; machine time instants are modelled as integer seconds since
the Unix epoch, numeric values as rationals.
-/

namespace WeatherApp

/-! ## Forecast rows and latest-model-run deduplication

The three forecast queries in src/app.py (get_temperature_forecast_24h,
get_rain_probability_today, get_temperature_comparison) all deduplicate
their underlying table with

  ROW_NUMBER() OVER (PARTITION BY forecast-instant, ds_location
                     ORDER BY dt_model_run_time DESC) = 1

keeping, per (forecast-instant, location) pair, only the row from the most
recent model run.  The partition column is dt_forecast_time for the two
hourly-forecast queries and dt_forecast_date for the rain query; both are
modelled by the field forecast_instant. -/

/-- One row of a forecast table (hcmut.gold.lstm_weather_24h or
hcmut.gold.lstm_rain_daily): a forecast target instant, the location it is
for, the instant the producing model ran, and the query-specific payload
(predicted temperature for the temperature tables, probability and label
for the rain table). -/
structure ForecastRow (α : Type) where
  forecast_instant : Int
  location : String
  model_run_time : Int
  payload : α
deriving DecidableEq

/-- The SQL partition key: PARTITION BY forecast-instant, ds_location. -/
def keyOf {α : Type} (r : ForecastRow α) : Int × String :=
  (r.forecast_instant, r.location)

/-- One step of scanning a partition for the row with the greatest
dt_model_run_time (the row that ROW_NUMBER ... ORDER BY dt_model_run_time
DESC ranks first). -/
def pickStep {α : Type} (acc : Option (ForecastRow α)) (r : ForecastRow α) :
    Option (ForecastRow α) :=
  match acc with
  | none => some r
  | some b => if b.model_run_time < r.model_run_time then some r else some b

/-- The row of a partition with the greatest dt_model_run_time (none for an
empty partition). -/
def pickLatest {α : Type} (rows : List (ForecastRow α)) : Option (ForecastRow α) :=
  rows.foldl pickStep none

/-- Latest-run deduplication: for each (forecast_instant, location) pair
present in the input, keep exactly the row of that partition with the
greatest dt_model_run_time.  This models the QUALIFY ROW_NUMBER() ... = 1
subqueries of the three forecast queries in src/app.py. -/
def latestRunDedup {α : Type} (rows : List (ForecastRow α)) : List (ForecastRow α) :=
  ((rows.map keyOf).dedup).filterMap
    (fun k => pickLatest (rows.filter (fun r => keyOf r = k)))

lemma pickStep_some {α : Type} (b r : ForecastRow α) :
    pickStep (some b) r =
      some (if b.model_run_time < r.model_run_time then r else b) := by
  by_cases h : b.model_run_time < r.model_run_time <;> simp [pickStep, h]

lemma foldl_pickStep_spec {α : Type} (l : List (ForecastRow α)) :
    ∀ b : ForecastRow α, ∃ r, l.foldl pickStep (some b) = some r ∧
      (r = b ∨ r ∈ l) ∧ b.model_run_time ≤ r.model_run_time ∧
      ∀ s ∈ l, s.model_run_time ≤ r.model_run_time := by
  induction l with
  | nil =>
    intro b
    exact ⟨b, rfl, Or.inl rfl, le_refl _, by simp⟩
  | cons x xs ih =>
    intro b
    obtain ⟨r, hr, hmem, hble, hall⟩ :=
      ih (if b.model_run_time < x.model_run_time then x else b)
    have hbm : b.model_run_time ≤
        (if b.model_run_time < x.model_run_time then x else b).model_run_time := by
      split_ifs with h
      · exact le_of_lt h
      · exact le_refl _
    have hxm : x.model_run_time ≤
        (if b.model_run_time < x.model_run_time then x else b).model_run_time := by
      split_ifs with h
      · exact le_refl _
      · exact le_of_not_lt h
    refine ⟨r, ?_, ?_, le_trans hbm hble, ?_⟩
    · rw [List.foldl_cons, pickStep_some]
      exact hr
    · rcases hmem with hm | hm
      · split_ifs at hm with h
        · exact Or.inr (hm ▸ List.mem_cons_self x xs)
        · exact Or.inl hm
      · exact Or.inr (List.mem_cons_of_mem x hm)
    · intro s hs
      rcases List.mem_cons.mp hs with rfl | hs'
      · exact le_trans hxm hble
      · exact hall s hs'

lemma pickLatest_spec {α : Type} (l : List (ForecastRow α)) (hl : l ≠ []) :
    ∃ r, pickLatest l = some r ∧ r ∈ l ∧
      ∀ s ∈ l, s.model_run_time ≤ r.model_run_time := by
  cases l with
  | nil => exact absurd rfl hl
  | cons x xs =>
    obtain ⟨r, hr, hmem, hxb, hall⟩ := foldl_pickStep_spec xs x
    refine ⟨r, ?_, ?_, ?_⟩
    · show (x :: xs).foldl pickStep none = some r
      rw [List.foldl_cons]
      exact hr
    · rcases hmem with rfl | h
      · exact List.mem_cons_self _ _
      · exact List.mem_cons_of_mem _ h
    · intro s hs
      rcases List.mem_cons.mp hs with rfl | h
      · exact hxb
      · exact hall s h

lemma pickLatest_mem {α : Type} {l : List (ForecastRow α)} {r : ForecastRow α}
    (h : pickLatest l = some r) : r ∈ l := by
  cases l with
  | nil => simp [pickLatest] at h
  | cons x xs =>
    obtain ⟨r', hr', hmem', _⟩ := pickLatest_spec (x :: xs) (by simp)
    rw [h] at hr'
    cases hr'
    exact hmem'

lemma mem_filter_key {α : Type} {rows : List (ForecastRow α)} {k : Int × String}
    {r : ForecastRow α} :
    r ∈ rows.filter (fun x => keyOf x = k) ↔ r ∈ rows ∧ keyOf r = k := by
  simp [List.mem_filter]

lemma filterMap_filter_eq_single {α : Type}
    (g : Int × String → Option (ForecastRow α))
    (hg : ∀ k r, g k = some r → keyOf r = k) :
    ∀ d : List (Int × String), d.Nodup → ∀ k, k ∈ d → ∀ r, g k = some r →
      (d.filterMap g).filter (fun x => keyOf x = k) = [r] := by
  intro d
  induction d with
  | nil => intro _ k hk; exact absurd hk (List.not_mem_nil k)
  | cons a d ih =>
    intro hnd k hk r hr
    have hnd' := List.nodup_cons.mp hnd
    rcases List.mem_cons.mp hk with rfl | hk'
    · rw [List.filterMap_cons_some hr]
      rw [List.filter_cons_of_pos (by simp [hg _ _ hr])]
      suffices hnil : (d.filterMap g).filter (fun x => keyOf x = k) = [] by
        rw [hnil]
      rw [List.filter_eq_nil_iff]
      intro x hx
      obtain ⟨k', hk', hgk'⟩ := List.mem_filterMap.mp hx
      have hkx : keyOf x = k' := hg _ _ hgk'
      have hne : k' ≠ k := fun h => hnd'.1 (h ▸ hk')
      simp [hkx, hne]
    · have hak : a ≠ k := fun h => hnd'.1 (h ▸ hk')
      cases hga : g a with
      | none =>
        rw [List.filterMap_cons_none hga]
        exact ih hnd'.2 k hk' r hr
      | some v =>
        rw [List.filterMap_cons_some hga]
        rw [List.filter_cons_of_neg (by simp [hg _ _ hga, hak])]
        exact ih hnd'.2 k hk' r hr

/-- Claim C1: for every (forecast_instant, location) pair present in the
table feeding a latest-run deduplication (the QUALIFY / ROW_NUMBER
subqueries of get_temperature_forecast_24h, get_rain_probability_today and
get_temperature_comparison in src/app.py), exactly one row survives the
deduplication, that row comes from the input partition, and its
model_run_time is the maximum model_run_time among all rows sharing that
pair. -/
theorem latest_run_dedup_unique_max (α : Type) (rows : List (ForecastRow α))
    (k : Int × String) (hk : k ∈ rows.map keyOf) :
    ∃ r, (latestRunDedup rows).filter (fun x => keyOf x = k) = [r] ∧
      r ∈ rows ∧ keyOf r = k ∧
      ∀ s ∈ rows, keyOf s = k → s.model_run_time ≤ r.model_run_time := by
  obtain ⟨r0, hr0mem, hr0key⟩ : ∃ r0, r0 ∈ rows ∧ keyOf r0 = k := by
    obtain ⟨a, ha, hak⟩ := List.mem_map.mp hk
    exact ⟨a, ha, hak⟩
  have hgrp : rows.filter (fun x => keyOf x = k) ≠ [] := by
    intro h
    have hmem0 : r0 ∈ rows.filter (fun x => keyOf x = k) :=
      mem_filter_key.mpr ⟨hr0mem, hr0key⟩
    rw [h] at hmem0
    exact absurd hmem0 (List.not_mem_nil r0)
  obtain ⟨r, hr, hrmem, hrmax⟩ := pickLatest_spec _ hgrp
  have hkey : keyOf r = k := (mem_filter_key.mp hrmem).2
  have hmem : r ∈ rows := (mem_filter_key.mp hrmem).1
  refine ⟨r, ?_, hmem, hkey, ?_⟩
  · show ((rows.map keyOf).dedup.filterMap
        (fun k => pickLatest (rows.filter (fun r => keyOf r = k)))).filter
        (fun x => keyOf x = k) = [r]
    exact filterMap_filter_eq_single _
      (fun k' r' h => (mem_filter_key.mp (pickLatest_mem h)).2)
      _ (List.nodup_dedup _) k (List.mem_dedup.mpr hk) r hr
  · intro s hs hsk
    exact hrmax s (mem_filter_key.mpr ⟨hs, hsk⟩)

/-- Witness for latest_run_dedup_unique_max: a concrete two-run table where
the pair (0, Ha Noi City) appears with model runs 1 and 2. -/
theorem latest_run_dedup_unique_max_witness :
    ((0 : Int), "Ha Noi City") ∈
      ([⟨0, "Ha Noi City", 1, (20 : ℚ)⟩,
        ⟨0, "Ha Noi City", 2, 21⟩] : List (ForecastRow ℚ)).map keyOf ∧
    ∃ r, (latestRunDedup
            ([⟨0, "Ha Noi City", 1, (20 : ℚ)⟩,
              ⟨0, "Ha Noi City", 2, 21⟩] : List (ForecastRow ℚ))).filter
            (fun x => keyOf x = ((0 : Int), "Ha Noi City")) = [r] ∧
      r ∈ ([⟨0, "Ha Noi City", 1, (20 : ℚ)⟩,
            ⟨0, "Ha Noi City", 2, 21⟩] : List (ForecastRow ℚ)) ∧
      keyOf r = ((0 : Int), "Ha Noi City") ∧
      ∀ s ∈ ([⟨0, "Ha Noi City", 1, (20 : ℚ)⟩,
              ⟨0, "Ha Noi City", 2, 21⟩] : List (ForecastRow ℚ)),
        keyOf s = ((0 : Int), "Ha Noi City") →
        s.model_run_time ≤ r.model_run_time :=
  ⟨by decide, latest_run_dedup_unique_max ℚ _ _ (by decide)⟩

/-! ## The five query pipelines

Complete embeddings of the five data-fetching functions of src/app.py, with
the warehouse tables passed in as lists of rows.  The ORDER BY clauses are
modelled by an insertion sort on the relevant key; the LIMIT clauses by
List.take. -/

/-- Insert into an ascending-by-key sorted list. -/
def insertAscBy {α : Type} (key : α → Int) (x : α) : List α → List α
  | [] => [x]
  | y :: ys => if key x ≤ key y then x :: y :: ys else y :: insertAscBy key x ys

/-- Insertion sort ascending by an integer key (models ORDER BY ... ASC). -/
def sortAscBy {α : Type} (key : α → Int) : List α → List α
  | [] => []
  | x :: xs => insertAscBy key x (sortAscBy key xs)

/-- Sort descending by an integer key (models ORDER BY ... DESC). -/
def sortDescBy {α : Type} (key : α → Int) (l : List α) : List α :=
  sortAscBy (fun a => -(key a)) l

/-- One row of an observation table (hcmut.gold.fact_vn_weather_daily or
fact_vn_weather_hourly): a record instant, a location, and the metric
columns as a named association (column name to value), mirroring the
SELECT * result. -/
structure ObsRow where
  dt_date_record : Int
  ds_location : String
  metrics : List (String × ℚ)
deriving DecidableEq

/-- The fixed display-timezone offset of the dashboard:
VIETNAM_TZ = Asia/Ho_Chi_Minh, a constant UTC+7, in seconds. -/
def VIETNAM_TZ_OFFSET : Int := 7 * 3600

/-- get_daily_weather (src/app.py): SELECT * FROM fact_vn_weather_daily
WHERE ds_location = :city ORDER BY dt_date_record DESC LIMIT 30. -/
def get_daily_weather (table : List ObsRow) (city : String) : List ObsRow :=
  (sortDescBy (fun r => r.dt_date_record)
    (table.filter (fun r => r.ds_location = city))).take 30

/-- get_hourly_weather (src/app.py): SELECT * FROM fact_vn_weather_hourly
WHERE ds_location = :city ORDER BY dt_date_record DESC LIMIT :limit with
limit = days * 24. -/
def get_hourly_weather (table : List ObsRow) (city : String) (days : Nat) :
    List ObsRow :=
  (sortDescBy (fun r => r.dt_date_record)
    (table.filter (fun r => r.ds_location = city))).take (days * 24)

/-- get_temperature_forecast_24h (src/app.py): latest-run deduplication of
lstm_weather_24h for one city, restricted to future-or-present target
instants, ascending by forecast time, LIMIT 24.  The payload is
nr_predicted_temperature. -/
def get_temperature_forecast_24h (table : List (ForecastRow ℚ)) (city : String)
    (now : Int) : List (ForecastRow ℚ) :=
  (sortAscBy (fun r => r.forecast_instant)
    ((latestRunDedup (table.filter (fun r => r.location = city))).filter
      (fun r => now ≤ r.forecast_instant))).take 24

/-- get_rain_probability_today (src/app.py): latest-run deduplication of
lstm_rain_daily for one city, restricted to rows whose forecast date taken
in the display timezone is on or after the current date, ascending by
forecast date, LIMIT 5.  The payload is (prediction_probability,
prediction_label); today is the current date as a day number.  The WHERE
clause runs inside the subquery, before the window function. -/
def get_rain_probability_today (table : List (ForecastRow (ℚ × Int)))
    (city : String) (today : Int) : List (ForecastRow (ℚ × Int)) :=
  (sortAscBy (fun r => r.forecast_instant)
    (latestRunDedup (table.filter (fun r =>
      r.location = city ∧
      today ≤ (r.forecast_instant + VIETNAM_TZ_OFFSET).fdiv 86400)))).take 5

/-- One row of the forecast-vs-actual comparison result: date (the forecast
target instant), predicted_temperature, actual_temperature, location. -/
structure CompRow where
  date : Int
  predicted_temperature : ℚ
  actual_temperature : ℚ
  location : String
deriving DecidableEq

/-- get_temperature_comparison (src/app.py): latest-run-deduplicated
lstm_weather_24h rows INNER JOINed to fact_vn_weather_hourly on matching
target instant and location (both restricted to the selected city),
descending by date, LIMIT days * 24.  The join reads nr_temperature_2m of
the observation row as the actual temperature. -/
def get_temperature_comparison (lstm : List (ForecastRow ℚ))
    (hourly : List ObsRow) (city : String) (days : Nat) : List CompRow :=
  let latest_lstm := latestRunDedup (lstm.filter (fun r => r.location = city))
  let joined := latest_lstm.flatMap (fun f =>
    (hourly.filter (fun w => f.forecast_instant = w.dt_date_record ∧
        f.location = w.ds_location ∧ w.ds_location = city)).map (fun w =>
      { date := f.forecast_instant
        predicted_temperature := f.payload
        actual_temperature :=
          (((w.metrics.find? (fun m => m.1 = "nr_temperature_2m")).map
            Prod.snd).getD 0)
        location := w.ds_location }))
  (sortDescBy (fun r => r.date) joined).take (days * 24)

/-! ## Rain-probability banding

Two sites in src/app.py classify the 0-100 scaled rain probability with the
same four-way branch: create_rain_probability_gauge (gauge color and label)
and the rain-view of main (metric banner).  Both receive
rain_prob = rain_probability * 100 where rain_probability is the raw 0-1
fraction from the query. -/

/-- A Streamlit message banner: st.info, st.warning or st.error with its
text. -/
inductive Banner where
  | info (msg : String)
  | warning (msg : String)
  | error (msg : String)
deriving DecidableEq

/-- The color/label branch of create_rain_probability_gauge (src/app.py
lines 251-262), a function of the 0-100 scaled probability. -/
def gauge_color_label (rain_prob : ℚ) : String × String :=
  if rain_prob < 30 then ("#4ECDC4", "Ít Khả Năng Mưa")
  else if rain_prob < 50 then ("#FFD93D", "Có Thể Mưa")
  else if rain_prob < 70 then ("#FFA07A", "Khả Năng Mưa Cao")
  else ("#FF6B6B", "Rất Có Khả Năng Mưa")

/-- The banner branch of the rain view in main (src/app.py lines 660-679),
a function of the same 0-100 scaled probability. -/
def main_rain_banner (rain_prob : ℚ) : Banner :=
  if rain_prob < 30 then .info "☀️ Ít khả năng mưa - Thời tiết khô ráo"
  else if rain_prob < 50 then .warning "⛅ Có thể mưa - Nên mang theo ô"
  else if rain_prob < 70 then .warning "🌦️ Khả năng mưa cao - Nên mang theo ô"
  else .error "🌧️ Rất có khả năng mưa - Nhớ mang theo ô!"

/-- Written from the specification wording, for comparison with the code:
probability below 30 is low, 30 to below 50 possible, 50 to below 70 high,
70 and above very high. -/
def spec_band (p : ℚ) : String :=
  if p < 30 then "low"
  else if p < 50 then "possible"
  else if p < 70 then "high"
  else "very high"

/-- Claim C2: the rain-probability banding is a pure total function of the
0-100 scaled probability p = 100 * raw fraction with exact half-open
boundaries (below 30 low, 30 to below 50 possible, 50 to below 70 high, 70
and above very high); both classification sites of src/app.py (the gauge
and the rain-view banner) assign the band this way, fraction 30/100 maps to
possible, 50/100 to high, 70/100 to very high. -/
theorem rain_banding_halfopen_consistent :
    (∀ f : ℚ,
      ((spec_band (100 * f) = "low") ↔
        (gauge_color_label (100 * f)).2 = "Ít Khả Năng Mưa") ∧
      ((spec_band (100 * f) = "possible") ↔
        (gauge_color_label (100 * f)).2 = "Có Thể Mưa") ∧
      ((spec_band (100 * f) = "high") ↔
        (gauge_color_label (100 * f)).2 = "Khả Năng Mưa Cao") ∧
      ((spec_band (100 * f) = "very high") ↔
        (gauge_color_label (100 * f)).2 = "Rất Có Khả Năng Mưa") ∧
      ((spec_band (100 * f) = "low") ↔
        main_rain_banner (100 * f) = .info "☀️ Ít khả năng mưa - Thời tiết khô ráo") ∧
      ((spec_band (100 * f) = "possible") ↔
        main_rain_banner (100 * f) = .warning "⛅ Có thể mưa - Nên mang theo ô") ∧
      ((spec_band (100 * f) = "high") ↔
        main_rain_banner (100 * f) = .warning "🌦️ Khả năng mưa cao - Nên mang theo ô") ∧
      ((spec_band (100 * f) = "very high") ↔
        main_rain_banner (100 * f) = .error "🌧️ Rất có khả năng mưa - Nhớ mang theo ô!")) ∧
    (∀ p : ℚ, (spec_band p = "low") ↔ p < 30) ∧
    (∀ p : ℚ, (spec_band p = "possible") ↔ (30 ≤ p ∧ p < 50)) ∧
    (∀ p : ℚ, (spec_band p = "high") ↔ (50 ≤ p ∧ p < 70)) ∧
    (∀ p : ℚ, (spec_band p = "very high") ↔ 70 ≤ p) ∧
    spec_band (100 * (25 / 100)) = "low" ∧
    spec_band (100 * (30 / 100)) = "possible" ∧
    spec_band (100 * (45 / 100)) = "possible" ∧
    spec_band (100 * (50 / 100)) = "high" ∧
    spec_band (100 * (65 / 100)) = "high" ∧
    spec_band (100 * (70 / 100)) = "very high" ∧
    spec_band (100 * (85 / 100)) = "very high" := by
  refine ⟨?_, ?_, ?_, ?_, ?_, by norm_num [spec_band], by norm_num [spec_band],
    by norm_num [spec_band], by norm_num [spec_band], by norm_num [spec_band],
    by norm_num [spec_band], by norm_num [spec_band]⟩
  · intro f
    unfold spec_band gauge_color_label main_rain_banner
    split_ifs <;> refine ⟨?_, ?_, ?_, ?_, ?_, ?_, ?_, ?_⟩ <;> decide
  · intro p
    unfold spec_band
    split_ifs with h1 h2 h3
    · exact iff_of_true rfl h1
    · exact iff_of_false (by decide) h1
    · exact iff_of_false (by decide) h1
    · exact iff_of_false (by decide) h1
  · intro p
    unfold spec_band
    split_ifs with h1 h2 h3
    · exact iff_of_false (by decide) (fun hc => absurd h1 (not_lt.mpr hc.1))
    · exact iff_of_true rfl ⟨not_lt.mp h1, h2⟩
    · exact iff_of_false (by decide) (fun hc => absurd hc.2 (not_lt.mpr (not_lt.mp h2)))
    · exact iff_of_false (by decide) (fun hc => absurd hc.2 (not_lt.mpr (not_lt.mp h2)))
  · intro p
    unfold spec_band
    split_ifs with h1 h2 h3
    · exact iff_of_false (by decide)
        (fun hc => absurd h1 (not_lt.mpr (le_trans (by norm_num) hc.1)))
    · exact iff_of_false (by decide) (fun hc => absurd h2 (not_lt.mpr hc.1))
    · exact iff_of_true rfl ⟨not_lt.mp h2, h3⟩
    · exact iff_of_false (by decide) (fun hc => absurd hc.2 (not_lt.mpr (not_lt.mp h3)))
  · intro p
    unfold spec_band
    split_ifs with h1 h2 h3
    · exact iff_of_false (by decide)
        (fun hc => absurd h1 (not_lt.mpr (le_trans (by norm_num) hc)))
    · exact iff_of_false (by decide)
        (fun hc => absurd h2 (not_lt.mpr (le_trans (by norm_num) hc)))
    · exact iff_of_false (by decide) (fun hc => absurd h3 (not_lt.mpr hc))
    · exact iff_of_true rfl (not_lt.mp h3)

/-! ## Tabular results, column-alias resolution and metric cards

create_weather_metrics_cards (src/app.py) probes several possible physical
column names per semantic quantity and renders Streamlit metric cards.  A
result set is modelled as named columns of rationals plus a row count. -/

/-- A tabular query result: named numeric columns and the row count
(len(df)). -/
structure DF where
  data : List (String × List ℚ)
  nrows : Nat
deriving DecidableEq

/-- The column names of a result set (df.columns). -/
def DF.columns (df : DF) : List String := df.data.map Prod.fst

/-- The values of one column (df[c]); empty when the column is absent. -/
def DF.col (df : DF) (c : String) : List ℚ :=
  ((df.data.find? (fun p => p.1 = c)).map Prod.snd).getD []

/-- Mean of a column (pandas .mean()). -/
def colMean (l : List ℚ) : ℚ := l.sum / l.length

/-- Maximum of a column (pandas .max(); 0 for the empty column, which the
dashboard never queries because cards render only for nonempty frames). -/
def colMax : List ℚ → ℚ
  | [] => 0
  | x :: xs => xs.foldl max x

/-- Minimum of a column (pandas .min()). -/
def colMin : List ℚ → ℚ
  | [] => 0
  | x :: xs => xs.foldl min x

/-- First candidate column name present in the result set; the for-in-break
probing loops of create_weather_metrics_cards and of the daily view in
main. -/
def resolve_alias (candidates cols : List String) : Option String :=
  candidates.find? (fun c => c ∈ cols)

/-- Daily mean-temperature column: nr_temperature_2m_mean before
nr_temperature_2m (src/app.py lines 364-368). -/
def temp_mean_col (cols : List String) : Option String :=
  resolve_alias ["nr_temperature_2m_mean", "nr_temperature_2m"] cols

/-- Daily max-temperature column with fallback to the mean column
(src/app.py line 370). -/
def temp_max_col (cols : List String) : Option String :=
  if "nr_temperature_2m_max" ∈ cols then some "nr_temperature_2m_max"
  else temp_mean_col cols

/-- Daily min-temperature column with fallback to the mean column
(src/app.py line 371). -/
def temp_min_col (cols : List String) : Option String :=
  if "nr_temperature_2m_min" ∈ cols then some "nr_temperature_2m_min"
  else temp_mean_col cols

/-- Daily rain column: nr_rain_sum before nr_precipitation_sum (src/app.py
lines 373-377). -/
def rain_col (cols : List String) : Option String :=
  resolve_alias ["nr_rain_sum", "nr_precipitation_sum"] cols

/-- Daily humidity column (src/app.py line 379): single candidate, no
fallback alias. -/
def humidity_col (cols : List String) : Option String :=
  if "nr_relative_humidity_2m_mean" ∈ cols then
    some "nr_relative_humidity_2m_mean"
  else none

/-- Temperature column for the daily-view chart (src/app.py lines
552-556). -/
def daily_chart_temp_col (cols : List String) : Option String :=
  resolve_alias
    ["nr_temperature_2m_mean", "nr_temperature_2m",
     "nr_temperature_2m_max", "nr_temperature_2m_min"] cols

/-- The value shown on one Streamlit metric card: a numeric aggregate, the
explicit "N/A" text, or a row count (the fallback card of the daily
humidity slot and the always-shown hour-count card). -/
inductive MetricVal where
  | na
  | val (q : ℚ)
  | count (n : Nat)
deriving DecidableEq

/-- The four metric cards of the daily branch of
create_weather_metrics_cards (src/app.py lines 362-405): label and value of
each card.  When the humidity column is absent the fourth slot shows a
day-count card instead of an N/A humidity card. -/
def daily_cards (df : DF) : List (String × MetricVal) :=
  [ (match temp_mean_col df.columns with
     | some c => ("🌡️ Nhiệt độ trung bình", MetricVal.val (colMean (df.col c)))
     | none => ("🌡️ Nhiệt độ trung bình", MetricVal.na)),
    (match temp_max_col df.columns with
     | some c => ("🔥 Nhiệt độ cao nhất", MetricVal.val (colMax (df.col c)))
     | none => ("🔥 Nhiệt độ cao nhất", MetricVal.na)),
    (match rain_col df.columns with
     | some c => ("🌧️ Tổng lượng mưa", MetricVal.val ((df.col c).sum))
     | none => ("🌧️ Tổng lượng mưa", MetricVal.na)),
    (match humidity_col df.columns with
     | some c => ("💧 Độ ẩm trung bình", MetricVal.val (colMean (df.col c)))
     | none => ("📊 Số ngày", MetricVal.count df.nrows)) ]

/-- The metric cards of the hourly branch of create_weather_metrics_cards
(src/app.py lines 407-422): each of the first three slots renders only when
its column is present (no N/A card, no fallback); the hour-count card
always renders. -/
def hourly_cards (df : DF) : List (String × MetricVal) :=
  (if "nr_temperature_2m" ∈ df.columns then
     [("🌡️ Nhiệt Độ TB", MetricVal.val (colMean (df.col "nr_temperature_2m")))]
   else []) ++
  (if "nr_humidity" ∈ df.columns then
     [("💧 Độ Ẩm TB", MetricVal.val (colMean (df.col "nr_humidity")))]
   else []) ++
  (if "nr_wind_speed" ∈ df.columns then
     [("💨 Tốc Độ Gió TB", MetricVal.val (colMean (df.col "nr_wind_speed")))]
   else []) ++
  [("⏰ Số Giờ", MetricVal.count df.nrows)]

/-- create_weather_metrics_cards (src/app.py): returns nothing at all on an
empty frame, else the cards of the requested branch. -/
def create_weather_metrics_cards (df : DF) (data_type : String) :
    Option (List (String × MetricVal)) :=
  if df.nrows = 0 then none
  else if data_type = "daily" then some (daily_cards df)
  else if data_type = "hourly" then some (hourly_cards df)
  else none

/-! ## Accuracy metrics over a comparison series

The comparison view of main (src/app.py lines 718-730) computes, for a
nonempty frame with both temperature columns,
mae = abs(predicted - actual).mean() and
rmse = ((predicted - actual) squared).mean() to the power one half.  The
metrics are shown only when the frame is nonempty; an empty frame yields
the no-data branch instead, so the metrics are unavailable rather than
zero. -/

/-- The (predicted, actual) pairs of a comparison result. -/
def comp_pairs (df : DF) : List (ℚ × ℚ) :=
  (df.col "predicted_temperature").zip (df.col "actual_temperature")

/-- MAE and mean squared error of a comparison series; none for the empty
series (the view renders its no-data branch and no metric).  The displayed
RMSE is the square root of the second component. -/
def comparison_metrics (pairs : List (ℚ × ℚ)) : Option (ℚ × ℚ) :=
  if pairs.isEmpty then none
  else some (colMean (pairs.map (fun pr => |pr.1 - pr.2|)),
             colMean (pairs.map (fun pr => (pr.1 - pr.2) ^ 2)))

/-- Claim C3: for every nonempty comparison series the metrics satisfy
MAE * n = sum of absolute errors and MSE * n = sum of squared errors (so
MAE is the mean absolute error and RMSE = sqrt MSE the root mean square
error); on [(20,22),(25,24)] this gives MAE = 3/2 and MSE = 5/2, whose
square root is sqrt(5/2); on the empty series the metrics are none
(unavailable), never zero. -/
theorem comparison_metrics_mae_rmse :
    (∀ pairs : List (ℚ × ℚ), (comparison_metrics pairs = none ↔ pairs = [])) ∧
    (∀ (pairs : List (ℚ × ℚ)) (m : ℚ × ℚ), comparison_metrics pairs = some m →
      m.1 * pairs.length = (pairs.map (fun pr => |pr.1 - pr.2|)).sum ∧
      m.2 * pairs.length = (pairs.map (fun pr => (pr.1 - pr.2) ^ 2)).sum) ∧
    comparison_metrics [((20 : ℚ), 22), (25, 24)] = some (3 / 2, 5 / 2) ∧
    Real.sqrt (5 / 2) ^ 2 = 5 / 2 := by
  refine ⟨?_, ?_, ?_, Real.sq_sqrt (by norm_num)⟩
  · intro pairs
    unfold comparison_metrics
    cases pairs with
    | nil => simp
    | cons x xs => simp
  · intro pairs m hm
    cases pairs with
    | nil => simp [comparison_metrics] at hm
    | cons x xs =>
      have hm' : (colMean ((x :: xs).map (fun pr => |pr.1 - pr.2|)),
          colMean ((x :: xs).map (fun pr => (pr.1 - pr.2) ^ 2))) = m := by
        simpa [comparison_metrics] using hm
      obtain rfl := hm'
      have hlen0 : (x :: xs : List (ℚ × ℚ)).length ≠ 0 := by simp
      refine ⟨?_, ?_⟩ <;>
        simp only [colMean, List.length_map] <;>
        exact div_mul_cancel₀ _ (Nat.cast_ne_zero.mpr hlen0)
  · have habs1 : |(20 : ℚ) - 22| = 2 := by
      rw [show (20 : ℚ) - 22 = -2 by norm_num, abs_neg, abs_two]
    have habs2 : |(25 : ℚ) - 24| = 1 := by
      rw [show (25 : ℚ) - 24 = 1 by norm_num, abs_one]
    norm_num [comparison_metrics, colMean, habs1, habs2]

/-- Witness for comparison_metrics_mae_rmse: the two-pair series, with the
some-hypothesis of the characterization discharged concretely. -/
theorem comparison_metrics_mae_rmse_witness :
    comparison_metrics [((20 : ℚ), 22), (25, 24)] = some (3 / 2, 5 / 2) ∧
    (3 / 2 : ℚ) * (([((20 : ℚ), 22), (25, 24)] : List (ℚ × ℚ)).length) =
      (([((20 : ℚ), 22), (25, 24)] : List (ℚ × ℚ)).map
        (fun pr => |pr.1 - pr.2|)).sum ∧
    (5 / 2 : ℚ) * (([((20 : ℚ), 22), (25, 24)] : List (ℚ × ℚ)).length) =
      (([((20 : ℚ), 22), (25, 24)] : List (ℚ × ℚ)).map
        (fun pr => (pr.1 - pr.2) ^ 2)).sum := by
  have h := comparison_metrics_mae_rmse
  have hc := h.2.2.1
  have hm := h.2.1 [((20 : ℚ), 22), (25, 24)] (3 / 2, 5 / 2) hc
  exact ⟨hc, hm.1, hm.2⟩

lemma resolve_alias_spec :
    ∀ (candidates cols : List String) (c : String),
      resolve_alias candidates cols = some c →
      c ∈ cols ∧ ∃ pre post, candidates = pre ++ c :: post ∧
        ∀ d ∈ pre, d ∉ cols := by
  intro candidates
  induction candidates with
  | nil => intro cols c h; simp [resolve_alias] at h
  | cons a cs ih =>
    intro cols c h
    unfold resolve_alias at h
    by_cases ha : a ∈ cols
    · rw [List.find?_cons_of_pos _ (by simpa using ha)] at h
      have hac : a = c := Option.some.inj h
      subst hac
      exact ⟨ha, [], cs, rfl, by simp⟩
    · rw [List.find?_cons_of_neg _ (by simpa using ha)] at h
      obtain ⟨hc, pre, post, hsplit, hpre⟩ := ih cols c h
      refine ⟨hc, a :: pre, post, by rw [hsplit]; rfl, ?_⟩
      intro d hd
      rcases List.mem_cons.mp hd with rfl | hd'
      · exact ha
      · exact hpre d hd'

/-- Claim C6: a semantic quantity is resolved to the first matching column
alias in the fixed priority order (any resolved alias is present and all
earlier candidates are absent); in particular a daily frame carrying only
nr_temperature_2m_mean resolves the temperature metric to that mean column
(for both the metric card and the daily chart) rather than to N/A; and when
no alias matches, resolution yields none (the quantity is unavailable)
rather than an error. -/
theorem column_alias_resolution :
    (∀ (candidates cols : List String) (c : String),
      resolve_alias candidates cols = some c →
      c ∈ cols ∧ ∃ pre post, candidates = pre ++ c :: post ∧
        ∀ d ∈ pre, d ∉ cols) ∧
    (∀ candidates cols : List String,
      (∀ c ∈ candidates, c ∉ cols) → resolve_alias candidates cols = none) ∧
    (∀ cols : List String, "nr_temperature_2m_mean" ∈ cols →
      temp_mean_col cols = some "nr_temperature_2m_mean") ∧
    temp_mean_col ["dt_date_record", "nr_temperature_2m_mean"] =
      some "nr_temperature_2m_mean" ∧
    daily_chart_temp_col ["dt_date_record", "nr_temperature_2m_mean"] =
      some "nr_temperature_2m_mean" ∧
    (daily_cards ⟨[("nr_temperature_2m_mean", [25, 27])], 2⟩).get? 0 =
      some ("🌡️ Nhiệt độ trung bình", MetricVal.val 26) ∧
    (∀ cols : List String, "nr_temperature_2m_mean" ∉ cols →
      "nr_temperature_2m" ∉ cols → temp_mean_col cols = none) := by
  refine ⟨resolve_alias_spec, ?_, ?_, by decide, by decide, ?_, ?_⟩
  · intro candidates cols h
    unfold resolve_alias
    rw [List.find?_eq_none]
    intro c hc
    simpa using h c hc
  · intro cols h
    unfold temp_mean_col resolve_alias
    exact List.find?_cons_of_pos _ (by simpa using h)
  · show (daily_cards ⟨[("nr_temperature_2m_mean", [25, 27])], 2⟩).get? 0 = _
    have hmean : colMean ((DF.col ⟨[("nr_temperature_2m_mean", [25, 27])], 2⟩
        "nr_temperature_2m_mean")) = 26 := by
      show colMean [25, 27] = 26
      norm_num [colMean]
    simp [daily_cards, temp_mean_col, resolve_alias, DF.columns, List.find?,
      hmean]
  · intro cols h1 h2
    unfold temp_mean_col resolve_alias
    rw [List.find?_cons_of_neg _ (by simpa using h1),
      List.find?_cons_of_neg _ (by simpa using h2)]
    rfl

/-- Witness for column_alias_resolution: concrete column lists for each
hypothesis-bearing conjunct. -/
theorem column_alias_resolution_witness :
    resolve_alias ["nr_rain_sum", "nr_precipitation_sum"]
      ["nr_precipitation_sum"] = some "nr_precipitation_sum" ∧
    ("nr_precipitation_sum" ∈ (["nr_precipitation_sum"] : List String) ∧
      ∃ pre post, ["nr_rain_sum", "nr_precipitation_sum"] =
        pre ++ "nr_precipitation_sum" :: post ∧
        ∀ d ∈ pre, d ∉ (["nr_precipitation_sum"] : List String)) ∧
    temp_mean_col ["nr_temperature_2m_mean"] =
      some "nr_temperature_2m_mean" ∧
    temp_mean_col ["dt_date_record"] = none := by
  refine ⟨by decide, column_alias_resolution.1 _ _ _ (by decide),
    column_alias_resolution.2.2.1 _ (by decide),
    column_alias_resolution.2.2.2.2.2.2 _ (by decide) (by decide)⟩

/-- Counterexample to claim C7: on a nonempty daily frame with no humidity
column the fourth card is the day-count card, not an N/A humidity card, and
on an hourly frame whose metric columns are all absent the temperature,
humidity and wind cards are omitted entirely (only the hour-count card
renders), not shown as N/A. -/
theorem humidity_absent_shows_count_card :
    daily_cards ⟨[("nr_temperature_2m_mean", [25])], 1⟩ =
      [("🌡️ Nhiệt độ trung bình", MetricVal.val 25),
       ("🔥 Nhiệt độ cao nhất", MetricVal.val 25),
       ("🌧️ Tổng lượng mưa", MetricVal.na),
       ("📊 Số ngày", MetricVal.count 1)] ∧
    MetricVal.count 1 ≠ MetricVal.na ∧
    hourly_cards ⟨[("nr_rain", [1])], 1⟩ = [("⏰ Số Giờ", MetricVal.count 1)] ∧
    (hourly_cards ⟨[("nr_rain", [1])], 1⟩).length = 1 := by
  have hmean : colMean ((DF.col ⟨[("nr_temperature_2m_mean", [25])], 1⟩
      "nr_temperature_2m_mean")) = 25 := by
    show colMean [25] = 25
    norm_num [colMean]
  refine ⟨?_, by decide, by decide, by decide⟩
  simp [daily_cards, temp_mean_col, temp_max_col, rain_col, humidity_col,
    resolve_alias, DF.columns, List.find?, hmean, colMax]
  decide

/-- Claim C7 as amended: the daily temperature-mean, temperature-max and
rain cards are explicit N/A cards when their resolved column is absent; the
daily humidity slot instead falls back to a day-count card when the
humidity column is absent; and the hourly metric cards are silently omitted
(not rendered as N/A) when their column is absent. -/
theorem metrics_na_policy : ∀ df : DF,
    (temp_mean_col df.columns = none →
      (daily_cards df).get? 0 = some ("🌡️ Nhiệt độ trung bình", MetricVal.na)) ∧
    (temp_max_col df.columns = none →
      (daily_cards df).get? 1 = some ("🔥 Nhiệt độ cao nhất", MetricVal.na)) ∧
    (rain_col df.columns = none →
      (daily_cards df).get? 2 = some ("🌧️ Tổng lượng mưa", MetricVal.na)) ∧
    (humidity_col df.columns = none →
      (daily_cards df).get? 3 = some ("📊 Số ngày", MetricVal.count df.nrows)) ∧
    ("nr_temperature_2m" ∉ df.columns →
      "🌡️ Nhiệt Độ TB" ∉ (hourly_cards df).map Prod.fst) := by
  intro df
  refine ⟨?_, ?_, ?_, ?_, ?_⟩
  · intro h; simp [daily_cards, h]
  · intro h; simp [daily_cards, h]
  · intro h; simp [daily_cards, h]
  · intro h; simp [daily_cards, h]
  · intro h
    simp only [hourly_cards, List.map_append, List.mem_append, if_neg h]
    split_ifs <;> simp_all

/-- Witness for metrics_na_policy: the empty frame has none of the
columns. -/
theorem metrics_na_policy_witness :
    temp_mean_col (DF.columns ⟨[], 0⟩) = none ∧
    (daily_cards ⟨[], 0⟩).get? 0 =
      some ("🌡️ Nhiệt độ trung bình", MetricVal.na) ∧
    humidity_col (DF.columns ⟨[], 0⟩) = none ∧
    (daily_cards ⟨[], 0⟩).get? 3 = some ("📊 Số ngày", MetricVal.count 0) ∧
    "🌡️ Nhiệt Độ TB" ∉ (hourly_cards ⟨[], 0⟩).map Prod.fst := by
  have h := metrics_na_policy ⟨[], 0⟩
  exact ⟨by decide, h.1 (by decide), by decide, h.2.2.2.1 (by decide),
    h.2.2.2.2 (by decide)⟩

/-! ## Timezone canonicalization

Every chart in src/app.py normalizes its timestamp column the same way: a
column that is not timezone-aware is tz_localized to UTC (never to the
local timezone), then tz_converted to VIETNAM_TZ into a new derived column
(forecast_time_vn, date_vn, dt_date_record_vn) used only for display.  A
timestamp is modelled by its wall-clock reading in seconds together with
its UTC offset; a timezone-naive timestamp has no offset. -/

/-- A pandas timestamp: wall-clock seconds (what the timestamp displays)
and its timezone as a UTC offset in seconds; none models a timezone-naive
timestamp. -/
structure Ts where
  wall : Int
  tzOffset : Option Int
deriving DecidableEq

/-- The absolute instant a timestamp denotes (wall reading minus offset);
undefined for a naive timestamp. -/
def Ts.instant (t : Ts) : Option Int := t.tzOffset.map (fun o => t.wall - o)

/-- The localization step of src/app.py: if df[col].dt.tz is None, the
column is tz_localized to UTC, which tags the wall reading with offset 0
and leaves the reading unchanged.  An already-aware timestamp is left
alone. -/
def tz_localize_utc (t : Ts) : Ts :=
  if t.tzOffset = none then { t with tzOffset := some 0 } else t

/-- pandas tz_convert: re-express the same instant at another UTC offset;
it fails (none) on a naive timestamp. -/
def tz_convert (off : Int) (t : Ts) : Option Ts :=
  match t.tzOffset with
  | some o => some { wall := t.wall - o + off, tzOffset := some off }
  | none => none

/-- The full per-column normalization of src/app.py: localize naive
timestamps as UTC, then convert to the display timezone.  The result is
the derived display column; the raw column is tz_localize_utc t. -/
def normalize_ts (t : Ts) : Option Ts :=
  tz_convert VIETNAM_TZ_OFFSET (tz_localize_utc t)

/-- Gregorian date (year, month, day) from a count of days since
1970-01-01, the standard civil-from-days algorithm. -/
def civilFromDays (z0 : Int) : Int × Int × Int :=
  let z := z0 + 719468
  let era := z.fdiv 146097
  let doe := z - era * 146097
  let yoe := (doe - doe.fdiv 1460 + doe.fdiv 36524 - doe.fdiv 146096).fdiv 365
  let y := yoe + era * 400
  let doy := doe - (365 * yoe + yoe.fdiv 4 - yoe.fdiv 100)
  let mp := (5 * doy + 2).fdiv 153
  let d := doy - (153 * mp + 2).fdiv 5 + 1
  let m := mp + (if mp < 10 then 3 else -9)
  (if m ≤ 2 then y + 1 else y, m, d)

/-- What a timestamp renders as: its wall-clock calendar date plus hour and
minute (the strftime output of src/app.py up to minutes). -/
def wallClock (t : Ts) : (Int × Int × Int) × Int × Int :=
  (civilFromDays (t.wall.fdiv 86400),
   (t.wall.emod 86400).fdiv 3600,
   ((t.wall.emod 86400).emod 3600).fdiv 60)

/-- Claim C5: a timestamp that is not timezone-aware is tagged as UTC with
its reading unchanged (never as local time), an aware timestamp is left
alone, and the derived display column carries the same instant as the raw
column at the fixed UTC+7 display offset while the raw column keeps its
wall reading; concretely the raw UTC instant 2024-01-01T00:00:00Z
(epoch second 1704067200) normalizes to wall reading 1704092400 at offset
25200, which renders as 2024-01-01 07:00 while denoting the unchanged
instant 1704067200. -/
theorem timezone_normalization :
    (∀ t : Ts, t.tzOffset = none →
      tz_localize_utc t = { wall := t.wall, tzOffset := some 0 }) ∧
    (∀ t : Ts, t.tzOffset ≠ none → tz_localize_utc t = t) ∧
    (∀ t u : Ts, normalize_ts t = some u →
      u.tzOffset = some VIETNAM_TZ_OFFSET ∧
      Ts.instant u = Ts.instant (tz_localize_utc t) ∧
      (tz_localize_utc t).wall = t.wall) ∧
    normalize_ts ⟨1704067200, some 0⟩ = some ⟨1704092400, some 25200⟩ ∧
    Ts.instant ⟨1704092400, some 25200⟩ = some 1704067200 ∧
    wallClock ⟨1704092400, some 25200⟩ = ((2024, 1, 1), 7, 0) ∧
    wallClock ⟨1704067200, some 0⟩ = ((2024, 1, 1), 0, 0) := by
  refine ⟨?_, ?_, ?_, by decide, by decide, by decide, by decide⟩
  · intro t h
    simp [tz_localize_utc, h]
  · intro t h
    simp [tz_localize_utc, h]
  · intro t u h
    unfold normalize_ts at h
    cases ht : t.tzOffset with
    | none =>
      have hs : tz_localize_utc t = { wall := t.wall, tzOffset := some 0 } := by
        simp [tz_localize_utc, ht]
      rw [hs] at h
      unfold tz_convert at h
      obtain rfl := Option.some.inj h
      refine ⟨rfl, ?_, by rw [hs]⟩
      rw [hs]
      simp [Ts.instant]
    | some o =>
      have hs : tz_localize_utc t = t := by simp [tz_localize_utc, ht]
      rw [hs] at h ⊢
      unfold tz_convert at h
      rw [ht] at h
      obtain rfl := Option.some.inj h
      refine ⟨rfl, ?_, rfl⟩
      simp [Ts.instant, ht]

/-- Witness for timezone_normalization: a naive timestamp is tagged UTC,
and the concrete normalization hypothesis is discharged at the 2024-01-01
instant. -/
theorem timezone_normalization_witness :
    Ts.tzOffset ⟨5, none⟩ = none ∧
    tz_localize_utc ⟨5, none⟩ = ⟨5, some 0⟩ ∧
    Ts.instant ⟨1704092400, some 25200⟩ =
      Ts.instant (tz_localize_utc ⟨1704067200, some 0⟩) := by
  have h := timezone_normalization
  exact ⟨rfl, h.1 ⟨5, none⟩ rfl,
    (h.2.2.1 ⟨1704067200, some 0⟩ ⟨1704092400, some 25200⟩ h.2.2.2.1).2.1⟩

/-! ## The result cache

Each of the five data-fetching functions of src/app.py carries the
decorator st.cache_data(ttl=600). -/

/-- The five cached query functions of src/app.py, each decorated with
st.cache_data(ttl=600). -/
inductive QueryId where
  | get_daily_weather
  | get_hourly_weather
  | get_temperature_forecast_24h
  | get_rain_probability_today
  | get_temperature_comparison
deriving DecidableEq

/-- The time-to-live of each query's cache, read off the five decorators in
src/app.py: every one says ttl=600, none overrides it. -/
def ttl (q : QueryId) : Nat :=
  match q with
  | .get_daily_weather => 600
  | .get_hourly_weather => 600
  | .get_temperature_forecast_24h => 600
  | .get_rain_probability_today => 600
  | .get_temperature_comparison => 600

lemma ttl_eq_600 : ∀ q : QueryId, ttl q = 600 := by
  intro q; cases q <;> rfl

/-- A cache key: the query function plus its resolved parameters
(warehouse-internal city key and effective row limit). -/
abbrev CacheKey := QueryId × String × Nat

/-- Modelled from the spec: the Result Cache state (spec section 4.2).  The
st.cache_data machinery itself is library code absent from src; src/app.py
contributes only the ttl=600 configuration on each query.  Entries map a
key to the stored result and its fetch time in seconds. -/
structure CacheState (α : Type) where
  entries : List (CacheKey × α × Nat)

/-- The stored (result, fetch-time) entry for a key, if any. -/
def lookupEntry {α : Type} (s : CacheState α) (k : CacheKey) :
    Option (α × Nat) :=
  (s.entries.find? (fun e => e.1 = k)).map Prod.snd

/-- Modelled from the spec: fetch through the TTL cache (spec section 4.2).
A stored entry younger than the key's ttl is returned with no warehouse
call; otherwise the warehouse function is invoked once, the entry is
replaced atomically, and the fresh result is returned.  The third component
counts warehouse calls made by this fetch. -/
def cache_fetch {α : Type} (wh : CacheKey → Nat → α) (s : CacheState α)
    (k : CacheKey) (now : Nat) : α × CacheState α × Nat :=
  match lookupEntry s k with
  | some (v, t) =>
      if now < t + ttl k.1 then (v, s, 0)
      else (wh k now,
            ⟨(k, wh k now, now) :: s.entries.filter (fun e => ¬(e.1 = k))⟩, 1)
  | none =>
      (wh k now,
       ⟨(k, wh k now, now) :: s.entries.filter (fun e => ¬(e.1 = k))⟩, 1)

/-- Claim C4: every one of the five queries has ttl 600 with no per-query
override; after a fetch that stores a result at time t1, any fetch of the
same (query, params) key before t1 + 600 returns the identical stored
result and state with zero warehouse calls, while a fetch at or after
t1 + 600 makes exactly one new warehouse call and replaces the stored
entry with the fresh result and timestamp. -/
theorem cache_ttl600_behavior :
    (∀ q : QueryId, ttl q = 600) ∧
    ∀ (α : Type) (wh : CacheKey → Nat → α) (s : CacheState α) (k : CacheKey)
      (t₁ t₂ : Nat) (v₁ : α) (s₁ : CacheState α) (c₁ : Nat),
      lookupEntry s k = none →
      cache_fetch wh s k t₁ = (v₁, s₁, c₁) →
      c₁ = 1 ∧ v₁ = wh k t₁ ∧ lookupEntry s₁ k = some (wh k t₁, t₁) ∧
      (t₂ < t₁ + 600 → cache_fetch wh s₁ k t₂ = (v₁, s₁, 0)) ∧
      (t₁ + 600 ≤ t₂ →
        (cache_fetch wh s₁ k t₂).1 = wh k t₂ ∧
        (cache_fetch wh s₁ k t₂).2.2 = 1 ∧
        lookupEntry (cache_fetch wh s₁ k t₂).2.1 k = some (wh k t₂, t₂)) := by
  refine ⟨ttl_eq_600, ?_⟩
  intro α wh s k t₁ t₂ v₁ s₁ c₁ hnone h₁
  have hfetch : cache_fetch wh s k t₁ =
      (wh k t₁,
       ⟨(k, wh k t₁, t₁) :: s.entries.filter (fun e => ¬(e.1 = k))⟩, 1) := by
    unfold cache_fetch
    rw [hnone]
  rw [hfetch] at h₁
  injection h₁ with h₁v h₁'
  injection h₁' with h₁s h₁c
  subst h₁v
  subst h₁s
  subst h₁c
  have hlook : lookupEntry
      (⟨(k, wh k t₁, t₁) :: s.entries.filter (fun e => ¬(e.1 = k))⟩ :
        CacheState α) k = some (wh k t₁, t₁) := by
    simp [lookupEntry]
  refine ⟨rfl, rfl, hlook, ?_, ?_⟩
  · intro ht
    unfold cache_fetch
    rw [hlook]
    have hcond : t₂ < t₁ + ttl k.1 := by rw [ttl_eq_600]; exact ht
    simp only [hcond, if_true]
  · intro ht
    unfold cache_fetch
    rw [hlook]
    have hcond : ¬(t₂ < t₁ + ttl k.1) := by rw [ttl_eq_600]; omega
    simp only [hcond, if_false]
    refine ⟨trivial, trivial, ?_⟩
    simp [lookupEntry]

/-- Witness for cache_ttl600_behavior: a second fetch 12 seconds after the
first hits the cache with no warehouse call. -/
theorem cache_ttl600_behavior_witness :
    lookupEntry (⟨[]⟩ : CacheState Nat)
      (QueryId.get_daily_weather, "Ha Noi City", 30) = none ∧
    (17 : Nat) < 5 + 600 ∧
    cache_fetch (fun _ t => t)
        ((cache_fetch (fun _ t => t) (⟨[]⟩ : CacheState Nat)
          (QueryId.get_daily_weather, "Ha Noi City", 30) 5).2.1)
        (QueryId.get_daily_weather, "Ha Noi City", 30) 17 =
      ((cache_fetch (fun _ t => t) (⟨[]⟩ : CacheState Nat)
          (QueryId.get_daily_weather, "Ha Noi City", 30) 5).1,
       (cache_fetch (fun _ t => t) (⟨[]⟩ : CacheState Nat)
          (QueryId.get_daily_weather, "Ha Noi City", 30) 5).2.1, 0) := by
  have h := cache_ttl600_behavior.2 Nat (fun _ t => t) ⟨[]⟩
    (QueryId.get_daily_weather, "Ha Noi City", 30) 5 17 _ _ _ rfl rfl
  exact ⟨rfl, by decide, h.2.2.2.1 (by decide)⟩

/-! ## City selection, views and query dispatch (main of src/app.py)

The sidebar offers the localized display names of CITIES; the selection is
translated once through the dict (db_city = CITIES.get(selected_city,
selected_city)) and every query receives db_city.  The day slider is shown
only for the daily, hourly and comparison views; all other views use the
default of 7, and the home-view comparison is fetched with days=3. -/

/-- The CITIES dict of src/app.py: localized display name to
warehouse-internal location key. -/
def CITIES : List (String × String) :=
  [("Hà Nội", "Ha Noi City"),
   ("Hồ Chí Minh", "Ho Chi Minh City"),
   ("Đà Nẵng", "Da Nang City")]

/-- CITIES.get(selected_city, selected_city): translate a display name to
its warehouse key, falling back to the name itself when it is not in the
dict. -/
def CITIES_get (name : String) : String :=
  ((CITIES.find? (fun p => p.1 = name)).map Prod.snd).getD name

/-- The six radio choices of the sidebar. -/
inductive View where
  | home
  | dailyView
  | hourlyView
  | forecast24hView
  | rainView
  | comparisonView
deriving DecidableEq

/-- The day window used by a view: the slider value for the daily, hourly
and comparison views (the only views for which the slider is shown), the
default 7 otherwise (src/app.py lines 495-499). -/
def effectiveDays (v : View) (slider : Nat) : Nat :=
  if v = View.dailyView ∨ v = View.hourlyView ∨ v = View.comparisonView then
    slider
  else 7

/-- The warehouse calls issued when rendering a view: query function,
location parameter, effective row limit.  The limits are LIMIT 30 for the
daily query, days * 24 for the hourly and comparison queries, 24 and 5 for
the forecast and rain queries; the home view fixes the comparison window
at days=3. -/
def queryCalls (v : View) (selected : String) (slider : Nat) :
    List (QueryId × String × Nat) :=
  let db_city := CITIES_get selected
  let days := effectiveDays v slider
  match v with
  | .home =>
      [(.get_temperature_forecast_24h, db_city, 24),
       (.get_rain_probability_today, db_city, 5),
       (.get_daily_weather, db_city, 30),
       (.get_temperature_comparison, db_city, 3 * 24)]
  | .dailyView => [(.get_daily_weather, db_city, 30)]
  | .hourlyView => [(.get_hourly_weather, db_city, days * 24)]
  | .forecast24hView => [(.get_temperature_forecast_24h, db_city, 24)]
  | .rainView => [(.get_rain_probability_today, db_city, 5)]
  | .comparisonView => [(.get_temperature_comparison, db_city, days * 24)]

/-- Claim C9: for every selectable city (a key of CITIES), the translated
key is the dict value for that display name, it is itself no display name,
and every warehouse call of every view passes exactly that translated key
as the location parameter. -/
theorem city_identity_translation :
    ∀ selected : String, selected ∈ CITIES.map Prod.fst →
      (selected, CITIES_get selected) ∈ CITIES ∧
      CITIES_get selected ∉ CITIES.map Prod.fst ∧
      ∀ slider : Nat,
        queryCalls .home selected slider =
          [(.get_temperature_forecast_24h, CITIES_get selected, 24),
           (.get_rain_probability_today, CITIES_get selected, 5),
           (.get_daily_weather, CITIES_get selected, 30),
           (.get_temperature_comparison, CITIES_get selected, 72)] ∧
        queryCalls .dailyView selected slider =
          [(.get_daily_weather, CITIES_get selected, 30)] ∧
        queryCalls .hourlyView selected slider =
          [(.get_hourly_weather, CITIES_get selected, slider * 24)] ∧
        queryCalls .forecast24hView selected slider =
          [(.get_temperature_forecast_24h, CITIES_get selected, 24)] ∧
        queryCalls .rainView selected slider =
          [(.get_rain_probability_today, CITIES_get selected, 5)] ∧
        queryCalls .comparisonView selected slider =
          [(.get_temperature_comparison, CITIES_get selected, slider * 24)] := by
  intro selected hsel
  have hsel' : selected = "Hà Nội" ∨ selected = "Hồ Chí Minh" ∨
      selected = "Đà Nẵng" := by
    simpa [CITIES] using hsel
  rcases hsel' with rfl | rfl | rfl <;>
    exact ⟨by decide, by decide,
      fun slider => ⟨rfl, rfl, rfl, rfl, rfl, rfl⟩⟩

/-- Witness for city_identity_translation at the first city. -/
theorem city_identity_translation_witness :
    "Hà Nội" ∈ CITIES.map Prod.fst ∧
    ("Hà Nội", CITIES_get "Hà Nội") ∈ CITIES ∧
    CITIES_get "Hà Nội" ∉ CITIES.map Prod.fst ∧
    queryCalls View.dailyView "Hà Nội" 7 =
      [(QueryId.get_daily_weather, CITIES_get "Hà Nội", 30)] := by
  have h := city_identity_translation "Hà Nội" (by decide)
  exact ⟨by decide, h.1, h.2.1, (h.2.2 7).2.1⟩

/-- Claim C10: the home view always fetches the comparison with the fixed
3-day window (limit 72) whatever the slider says; the home, forecast and
rain views issue slider-independent calls; the hourly and dedicated
comparison views scale their limit by the slider. -/
theorem fixed_home_comparison_window :
    ∀ (selected : String) (s₁ s₂ : Nat),
      queryCalls .home selected s₁ = queryCalls .home selected s₂ ∧
      (QueryId.get_temperature_comparison, CITIES_get selected, 72) ∈
        queryCalls .home selected s₁ ∧
      queryCalls .forecast24hView selected s₁ =
        queryCalls .forecast24hView selected s₂ ∧
      queryCalls .rainView selected s₁ = queryCalls .rainView selected s₂ ∧
      queryCalls .hourlyView selected s₁ =
        [(.get_hourly_weather, CITIES_get selected, s₁ * 24)] ∧
      queryCalls .comparisonView selected s₁ =
        [(.get_temperature_comparison, CITIES_get selected, s₁ * 24)] := by
  intro selected s₁ s₂
  refine ⟨rfl, ?_, rfl, rfl, rfl, rfl⟩
  simp [queryCalls]

/-! ## Rendering and the empty-result states

What each view of main (src/app.py lines 502-743) puts on the page, at the
granularity the empty-result claims need. -/

/-- One rendered element: an explicit no-data warning, an informational
placeholder, a chart, metric cards, a banner, accuracy metrics (MAE and
mean square error; the page shows the square root of the latter), or a
data table. -/
inductive Render where
  | noData (msg : String)
  | info (msg : String)
  | chart (title : String)
  | cards (cs : List (String × MetricVal))
  | banner (b : Banner)
  | accuracy (mae msq : ℚ)
  | table
deriving DecidableEq

/-- create_temperature_forecast_chart (src/app.py lines 195-233): explicit
warning on an empty frame, else the line chart. -/
def create_temperature_forecast_chart (df : DF) : Render :=
  if df.nrows = 0 then Render.noData "Không có dữ liệu dự đoán."
  else Render.chart "🌡️ Dự Đoán Nhiệt Độ 24 Giờ Tiếp Theo"

/-- create_rain_probability_gauge (src/app.py lines 235-304): explicit
warning on an empty frame, else the gauge. -/
def create_rain_probability_gauge (df : DF) : Render :=
  if df.nrows = 0 then Render.noData "Không có dữ liệu xác suất mưa."
  else Render.chart "🌧️ Xác Suất Mưa"

/-- create_comparison_chart (src/app.py lines 306-355): explicit warning on
an empty frame or a frame without the predicted column, else the
comparison chart. -/
def create_comparison_chart (df : DF) : Render :=
  if df.nrows = 0 ∨ "predicted_temperature" ∉ df.columns then
    Render.noData "Không có dữ liệu để so sánh."
  else Render.chart "📊 So Sánh Nhiệt Độ Dự Đoán vs Thực Tế"

/-- The home view (src/app.py lines 503-539): info placeholders for empty
forecast and rain results, but the daily-metrics and comparison sections
render nothing at all when their result is empty. -/
def home_view (temp_forecast rain_prob daily_data comparison_data : DF) :
    List Render :=
  (if temp_forecast.nrows ≠ 0 then
     [create_temperature_forecast_chart temp_forecast]
   else [Render.info "Đang tải dữ liệu dự đoán..."]) ++
  (if rain_prob.nrows ≠ 0 then [create_rain_probability_gauge rain_prob]
   else [Render.info "Đang tải dữ liệu xác suất mưa..."]) ++
  (if daily_data.nrows ≠ 0 then [Render.cards (daily_cards daily_data)]
   else []) ++
  (if comparison_data.nrows ≠ 0 then
     [create_comparison_chart comparison_data]
   else [])

/-- The daily view (src/app.py lines 541-583). -/
def daily_view (df : DF) : List Render :=
  if df.nrows ≠ 0 then
    [Render.cards (daily_cards df)] ++
    (match daily_chart_temp_col df.columns with
     | some _ => [Render.chart "🌡️ Nhiệt Độ Hàng Ngày"]
     | none =>
        [Render.noData
          "Không tìm thấy cột nhiệt độ phù hợp trong dữ liệu hàng ngày."]) ++
    [Render.table]
  else [Render.noData "Không có dữ liệu cho thành phố này."]

/-- The hourly view (src/app.py lines 585-619). -/
def hourly_view (df : DF) : List Render :=
  if df.nrows ≠ 0 then
    [Render.cards (hourly_cards df)] ++
    (if "nr_temperature_2m" ∈ df.columns ∧ "dt_date_record" ∈ df.columns then
       [Render.chart "🌡️ Nhiệt Độ Theo Giờ (UTC+7, 7 Ngày Gần Nhất)"]
     else []) ++
    [Render.table]
  else [Render.noData "Không có dữ liệu cho thành phố này."]

/-- The 24h-forecast view (src/app.py lines 621-644). -/
def forecast24h_view (df : DF) : List Render :=
  if df.nrows ≠ 0 then
    [Render.cards
      [("🌡️ Nhiệt Độ TB",
        MetricVal.val (colMean (df.col "predicted_temperature"))),
       ("🔥 Cao Nhất", MetricVal.val (colMax (df.col "predicted_temperature"))),
       ("❄️ Thấp Nhất",
        MetricVal.val (colMin (df.col "predicted_temperature")))]] ++
    [create_temperature_forecast_chart df] ++
    [Render.table]
  else [Render.noData "Không có dữ liệu dự đoán cho thành phố này."]

/-- The rain-probability view (src/app.py lines 646-710): the banner branch
on the 0-100 scaled first probability, then the gauge. -/
def rain_view (df : DF) : List Render :=
  if df.nrows ≠ 0 then
    [Render.banner (main_rain_banner
      (100 * ((df.col "rain_probability").headD 0)))] ++
    [create_rain_probability_gauge df] ++
    [Render.table]
  else [Render.noData "Không có dữ liệu xác suất mưa cho ngày hôm nay."]

/-- The comparison view (src/app.py lines 712-739): accuracy metrics only
when both temperature columns are present, then the comparison chart and
table. -/
def comparison_view (df : DF) : List Render :=
  if df.nrows ≠ 0 then
    (if "predicted_temperature" ∈ df.columns ∧
        "actual_temperature" ∈ df.columns then
       match comparison_metrics (comp_pairs df) with
       | some m => [Render.accuracy m.1 m.2]
       | none => []
     else []) ++
    [create_comparison_chart df] ++
    [Render.table]
  else [Render.noData "Không có dữ liệu để so sánh cho thành phố này."]

/-- Counterexample to claim C8: on the home view with every query empty,
only the forecast and rain placeholders render; the daily-metrics and
comparison sections of the home view render no element at all, and no
explicit no-data element appears anywhere on the page. -/
theorem home_view_empty_silent_sections :
    home_view ⟨[], 0⟩ ⟨[], 0⟩ ⟨[], 0⟩ ⟨[], 0⟩ =
      [Render.info "Đang tải dữ liệu dự đoán...",
       Render.info "Đang tải dữ liệu xác suất mưa..."] ∧
    (home_view ⟨[], 0⟩ ⟨[], 0⟩ ⟨[], 0⟩ ⟨[], 0⟩).length = 2 ∧
    (home_view ⟨[], 0⟩ ⟨[], 0⟩ ⟨[], 0⟩ ⟨[], 0⟩).filter
      (fun r => match r with | Render.noData _ => true | _ => false) = [] := by
  decide

/-- Claim C8 as amended: each of the five dedicated views renders an
explicit no-data warning on an empty result (and, being total functions,
the view embeddings raise nothing); on the home view an empty forecast or
rain result yields an info placeholder while the empty daily-metrics and
comparison sections render nothing. -/
theorem empty_result_rendering :
    ∀ df : DF, df.nrows = 0 →
      daily_view df = [Render.noData "Không có dữ liệu cho thành phố này."] ∧
      hourly_view df = [Render.noData "Không có dữ liệu cho thành phố này."] ∧
      forecast24h_view df =
        [Render.noData "Không có dữ liệu dự đoán cho thành phố này."] ∧
      rain_view df =
        [Render.noData "Không có dữ liệu xác suất mưa cho ngày hôm nay."] ∧
      comparison_view df =
        [Render.noData "Không có dữ liệu để so sánh cho thành phố này."] ∧
      home_view df df df df =
        [Render.info "Đang tải dữ liệu dự đoán...",
         Render.info "Đang tải dữ liệu xác suất mưa..."] := by
  intro df h
  refine ⟨?_, ?_, ?_, ?_, ?_, ?_⟩
  · simp [daily_view, h]
  · simp [hourly_view, h]
  · simp [forecast24h_view, h]
  · simp [rain_view, h]
  · simp [comparison_view, h]
  · simp [home_view, h]

/-- Witness for empty_result_rendering at the empty frame. -/
theorem empty_result_rendering_witness :
    DF.nrows ⟨[], 0⟩ = 0 ∧
    daily_view ⟨[], 0⟩ =
      [Render.noData "Không có dữ liệu cho thành phố này."] :=
  ⟨rfl, (empty_result_rendering ⟨[], 0⟩ rfl).1⟩

end WeatherApp
